import Mathlib

/-!
Verification of the google-slides MCP server (`google-slides-server.py`).

The development shallowly embeds the pieces of the program that the
specification talks about:

* the bullet-range translator inside `SlidesManager.add_content_slide`
  (source lines 320-351), modelled as a pure function on `List Char`
  (Python strings are sequences of characters; only ASCII whitespace is
  relevant to the claims);
* the `SlidesManager` methods and the MCP tool wrappers, modelled as pure
  functions over an explicit name-to-id table, an environment of remote
  response functions, and an explicit trace of side effects.
-/

/-! ## Python string primitives (on `List Char`) -/

/-- Whitespace characters recognised by Python's default `str.strip()` /
`rstrip()` for ASCII text: space, tab, newline, carriage return,
vertical tab, form feed. -/
def pyIsSpace (c : Char) : Bool :=
  c == ' ' || c == '\t' || c == '\n' || c == '\r' ||
  c == Char.ofNat 11 || c == Char.ofNat 12

/-- Python `s.lstrip()`: drop leading whitespace. -/
def lstrip (s : List Char) : List Char := s.dropWhile pyIsSpace

/-- Python `s.rstrip()`: drop trailing whitespace. -/
def rstrip (s : List Char) : List Char := (s.reverse.dropWhile pyIsSpace).reverse

/-- Python `s.strip()`: drop leading and trailing whitespace. -/
def strip (s : List Char) : List Char := rstrip (lstrip s)

/-- Python `s.split(sep)` for the one-character separator: `splitLines`
is `s.split(chr 10)`.  The empty string splits to `[""]`, and a trailing
separator yields a trailing empty piece, exactly as in Python. -/
def splitLines : List Char → List (List Char)
  | [] => [[]]
  | c :: rest =>
    match splitLines rest with
    | [] => [[]]
    | l :: ls => if c = '\n' then [] :: l :: ls else (c :: l) :: ls

/-! ## The bullet-range translator (source lines 320-351)

```text
if body_id and content.strip():
    bullet_requests = []
    lines = content.strip().split(chr 10)
    current_index = 0
    for line in lines:
        if not line.strip():
            current_index += len(line) + 1
            continue
        line_length = len(line.rstrip())
        if line.strip():
            bullet_requests.append(createParagraphBullets(
                startIndex=current_index, endIndex=current_index + line_length))
        current_index += line_length + 1
```
-/

/-- One emitted `createParagraphBullets` text range: the code's
`startIndex` / `endIndex` fields.  The request carries no nesting-level
field of any kind. -/
structure BulletRange where
  startIndex : Nat
  endIndex : Nat
deriving Repr, DecidableEq

/-- One iteration of the `for line in lines` loop above, acting on the
state `(current_index, bullet_requests)`. -/
def bulletStep (acc : Nat × List BulletRange) (line : List Char) :
    Nat × List BulletRange :=
  if (strip line).isEmpty then
    (acc.1 + line.length + 1, acc.2)
  else
    let line_length := (rstrip line).length
    let acc2 :=
      if (strip line).isEmpty = false then
        acc.2 ++ [⟨acc.1, acc.1 + line_length⟩]
      else acc.2
    (acc.1 + line_length + 1, acc2)

/-- The bullet-range translator of `add_content_slide`: the guard
`content.strip()` followed by the loop over `content.strip().split(chr 10)`.
Returns the `bullet_requests` ranges in emission order. -/
def compute_bullet_ranges (content : List Char) : List BulletRange :=
  if (strip content).isEmpty then []
  else (((splitLines (strip content)).foldl bulletStep (0, []))).2

/-! ## Basic lemmas about the string primitives -/

theorem dropWhile_idem (p : Char → Bool) (l : List Char) :
    (l.dropWhile p).dropWhile p = l.dropWhile p := by
  induction l with
  | nil => rfl
  | cons c t ih =>
    by_cases h : p c
    · simp [List.dropWhile_cons, h, ih]
    · simp [List.dropWhile_cons, h]

theorem length_dropWhile_le (p : Char → Bool) (l : List Char) :
    (l.dropWhile p).length ≤ l.length := by
  induction l with
  | nil => simp
  | cons c t ih =>
    by_cases h : p c
    · simp only [List.dropWhile_cons, if_pos h]
      exact Nat.le_trans ih (Nat.le_succ _)
    · simp [List.dropWhile_cons, h]

theorem rstrip_idem (l : List Char) : rstrip (rstrip l) = rstrip l := by
  simp [rstrip, dropWhile_idem]

theorem rstrip_strip (l : List Char) : rstrip (strip l) = strip l := by
  simp [strip, rstrip_idem]

theorem mem_dropWhile {p : Char → Bool} {x : Char} {l : List Char} :
    x ∈ l.dropWhile p → x ∈ l := by
  induction l with
  | nil => simp
  | cons c t ih =>
    by_cases h : p c
    · simp only [List.dropWhile_cons, if_pos h]
      intro hx
      exact List.mem_cons_of_mem _ (ih hx)
    · simp [List.dropWhile_cons, h]

theorem mem_lstrip {x : Char} {l : List Char} : x ∈ lstrip l → x ∈ l :=
  mem_dropWhile

theorem mem_rstrip {x : Char} {l : List Char} : x ∈ rstrip l → x ∈ l := by
  intro hx
  rw [rstrip, List.mem_reverse] at hx
  exact (List.mem_reverse).mp (mem_dropWhile hx)

theorem mem_strip {x : Char} {l : List Char} : x ∈ strip l → x ∈ l :=
  fun hx => mem_lstrip (mem_rstrip hx)

theorem dropWhile_eq_nil_of_forall {p : Char → Bool} {l : List Char}
    (h : ∀ x ∈ l, p x) : l.dropWhile p = [] := by
  induction l with
  | nil => rfl
  | cons c t ih =>
    have hc : p c := h c (List.mem_cons_self _ _)
    simp only [List.dropWhile_cons, if_pos hc]
    exact ih (fun x hx => h x (List.mem_cons_of_mem _ hx))

theorem forall_of_dropWhile_eq_nil {p : Char → Bool} {l : List Char}
    (h : l.dropWhile p = []) : ∀ x ∈ l, p x := by
  induction l with
  | nil => simp
  | cons c t ih =>
    by_cases hc : p c
    · simp only [List.dropWhile_cons, if_pos hc] at h
      intro x hx
      rcases List.mem_cons.mp hx with rfl | hx
      · exact hc
      · exact ih h x hx
    · simp [List.dropWhile_cons, hc] at h

theorem strip_eq_nil_of_rstrip_eq_nil {l : List Char} (h : rstrip l = []) :
    strip l = [] := by
  have hall : ∀ x ∈ l, pyIsSpace x := by
    intro x hx
    have h2 : l.reverse.dropWhile pyIsSpace = [] := by
      have := congrArg List.reverse h
      simpa [rstrip] using this
    exact forall_of_dropWhile_eq_nil h2 x ((List.mem_reverse).mpr hx)
  have hl : lstrip l = [] := dropWhile_eq_nil_of_forall hall
  simp [strip, hl, rstrip]

theorem rstrip_ne_nil_of_strip_ne_nil {l : List Char} (h : strip l ≠ []) :
    rstrip l ≠ [] := fun hr => h (strip_eq_nil_of_rstrip_eq_nil hr)

theorem head_not_space_of_lstrip_eq_self {c : Char} {t : List Char}
    (h : lstrip (c :: t) = c :: t) : pyIsSpace c = false := by
  by_cases hc : pyIsSpace c
  · exfalso
    simp only [lstrip, List.dropWhile_cons, if_pos hc] at h
    have := length_dropWhile_le pyIsSpace t
    rw [h, List.length_cons] at this
    omega
  · simpa using hc

theorem dropWhile_append_list (p : Char → Bool) (l1 l2 : List Char) :
    (l1 ++ l2).dropWhile p =
      if (l1.dropWhile p).isEmpty then l2.dropWhile p
      else l1.dropWhile p ++ l2 := by
  induction l1 with
  | nil => simp
  | cons c t ih =>
    by_cases h : p c
    · simpa [List.dropWhile_cons, h] using ih
    · simp [List.dropWhile_cons, h]

theorem rstrip_cons_cases (c : Char) (t : List Char) :
    rstrip (c :: t) = [] ∨ ∃ t2, rstrip (c :: t) = c :: t2 := by
  simp only [rstrip, List.reverse_cons]
  rw [dropWhile_append_list]
  by_cases ht : (t.reverse.dropWhile pyIsSpace).isEmpty
  · rw [if_pos ht]
    by_cases hc : pyIsSpace c
    · left; simp [List.dropWhile_cons, hc]
    · right; exact ⟨[], by simp [List.dropWhile_cons, hc]⟩
  · rw [if_neg ht]
    right
    exact ⟨(t.reverse.dropWhile pyIsSpace).reverse, by simp⟩

theorem lstrip_idem (l : List Char) : lstrip (lstrip l) = lstrip l :=
  dropWhile_idem pyIsSpace l

theorem lstrip_rstrip_of_lstrip_eq_self {l : List Char}
    (h : lstrip l = l) : lstrip (rstrip l) = rstrip l := by
  cases l with
  | nil => rfl
  | cons c t =>
    have hc : pyIsSpace c = false := head_not_space_of_lstrip_eq_self h
    rcases rstrip_cons_cases c t with h0 | ⟨t2, h2⟩
    · rw [h0]; rfl
    · rw [h2]
      simp [lstrip, List.dropWhile_cons, hc]

theorem strip_idem (l : List Char) : strip (strip l) = strip l := by
  have h1 : lstrip (rstrip (lstrip l)) = rstrip (lstrip l) :=
    lstrip_rstrip_of_lstrip_eq_self (lstrip_idem l)
  show rstrip (lstrip (rstrip (lstrip l))) = rstrip (lstrip l)
  rw [h1, rstrip_idem]

theorem splitLines_no_newline {l : List Char} (h : '\n' ∉ l) :
    splitLines l = [l] := by
  induction l with
  | nil => rfl
  | cons c t ih =>
    have hc : c ≠ '\n' := fun hcn => h (hcn ▸ List.mem_cons_self _ _)
    have ht : '\n' ∉ t := fun htn => h (List.mem_cons_of_mem _ htn)
    simp [splitLines, ih ht, hc]

/-! ## Characterisation of the translator loop -/

/-- The ranges appended by the loop when it starts at offset `cursor`
and still has `lines` to process. -/
def emitFrom (cursor : Nat) : List (List Char) → List BulletRange
  | [] => []
  | line :: rest =>
    if (strip line).isEmpty then emitFrom (cursor + line.length + 1) rest
    else
      ⟨cursor, cursor + (rstrip line).length⟩ ::
        emitFrom (cursor + (rstrip line).length + 1) rest

theorem foldl_bulletStep_ranges (lines : List (List Char)) :
    ∀ (cursor : Nat) (rs : List BulletRange),
      (lines.foldl bulletStep (cursor, rs)).2 = rs ++ emitFrom cursor lines := by
  induction lines with
  | nil => intro cursor rs; simp [emitFrom]
  | cons line rest ih =>
    intro cursor rs
    by_cases h : (strip line).isEmpty
    · simp [List.foldl_cons, bulletStep, h, emitFrom, ih]
    · simp only [List.foldl_cons, bulletStep, h, if_neg, emitFrom, ih,
        Bool.false_eq_true, not_false_iff, if_true, if_false]
      simp [h, List.append_assoc]

theorem emitFrom_bounds (lines : List (List Char)) :
    ∀ (cursor : Nat), ∀ r ∈ emitFrom cursor lines,
      cursor ≤ r.startIndex ∧ r.startIndex < r.endIndex := by
  induction lines with
  | nil => intro cursor r hr; simp [emitFrom] at hr
  | cons line rest ih =>
    intro cursor r hr
    by_cases h : (strip line).isEmpty
    · rw [emitFrom, if_pos h] at hr
      have := ih (cursor + line.length + 1) r hr
      exact ⟨Nat.le_trans (by omega) this.1, this.2⟩
    · rw [emitFrom, if_neg h] at hr
      rcases List.mem_cons.mp hr with rfl | hr
      · refine ⟨Nat.le_refl _, ?_⟩
        have hne : rstrip line ≠ [] :=
          rstrip_ne_nil_of_strip_ne_nil (by simpa [List.isEmpty_iff] using h)
        have : 0 < (rstrip line).length := List.length_pos.mpr hne
        simp only []
        omega
      · have := ih (cursor + (rstrip line).length + 1) r hr
        exact ⟨Nat.le_trans (by omega) this.1, this.2⟩

theorem emitFrom_pairwise (lines : List (List Char)) :
    ∀ (cursor : Nat),
      (emitFrom cursor lines).Pairwise
        (fun a b => a.endIndex < b.startIndex) := by
  induction lines with
  | nil => intro cursor; simp [emitFrom]
  | cons line rest ih =>
    intro cursor
    by_cases h : (strip line).isEmpty
    · rw [emitFrom, if_pos h]; exact ih _
    · rw [emitFrom, if_neg h]
      refine List.Pairwise.cons ?_ (ih _)
      intro b hb
      have := (emitFrom_bounds rest (cursor + (rstrip line).length + 1) b hb).1
      simp only []
      omega

theorem emitFrom_lengths (lines : List (List Char)) :
    ∀ (cursor : Nat),
      (emitFrom cursor lines).map (fun r => r.endIndex - r.startIndex) =
        (lines.filter (fun l => !(strip l).isEmpty)).map
          (fun l => (rstrip l).length) := by
  induction lines with
  | nil => intro cursor; simp [emitFrom]
  | cons line rest ih =>
    intro cursor
    by_cases h : (strip line).isEmpty
    · rw [emitFrom, if_pos h]
      simp [List.filter_cons, h, ih]
    · rw [emitFrom, if_neg h]
      simp [List.filter_cons, h, ih]

theorem emitFrom_count (lines : List (List Char)) :
    ∀ (cursor : Nat),
      (emitFrom cursor lines).length =
        (lines.filter (fun l => !(strip l).isEmpty)).length := by
  intro cursor
  have := emitFrom_lengths lines cursor
  have h1 := congrArg List.length this
  simpa using h1

theorem compute_bullet_ranges_eq_emitFrom (content : List Char)
    (h : ¬ (strip content).isEmpty) :
    compute_bullet_ranges content = emitFrom 0 (splitLines (strip content)) := by
  rw [compute_bullet_ranges, if_neg h, foldl_bulletStep_ranges]
  simp

/-! ## Claims about the bullet-range translator -/

/-- C1 counterexample: the claim predicts, for input `"a\n\tb"`, emitted
range lengths `[1, 1]` (each line's character count after removing leading
tabs and trailing whitespace).  The code's translator emits lengths
`[1, 2]`: the leading tab of the second line is counted, not removed. -/
theorem claim_C1_counterexample :
    (compute_bullet_ranges ['a', '\n', '\t', 'b']).map
      (fun r => r.endIndex - r.startIndex) ≠ [1, 1] := by decide

/-- C1 (amended): for every non-blank line of the stripped content block,
the emitted range's length (`end - start`) equals `len(line.rstrip())` —
leading tab characters are included in the length, not removed, and no
nesting-level value is computed or emitted at all. -/
theorem claim_C1 (s : List Char) :
    (compute_bullet_ranges s).map (fun r => r.endIndex - r.startIndex) =
      ((splitLines (strip s)).filter (fun l => !(strip l).isEmpty)).map
        (fun l => (rstrip l).length) := by
  by_cases h : (strip s).isEmpty
  · have hs : strip s = [] := by simpa [List.isEmpty_iff] using h
    simp only [compute_bullet_ranges, h, if_true]
    rw [hs]
    decide
  · rw [compute_bullet_ranges_eq_emitFrom s h, emitFrom_lengths]

/-- C2: evaluation of the translator at the failing input `"a \nb"`.
After the non-blank line `"a "` (raw length 2) the cursor has advanced by
`len(line.rstrip()) + 1 = 2`, not by `len(line) + 1 = 3`, so the range
emitted for `"b"` starts at offset 2 although `b` sits at offset 3 of the
text that `add_content_slide` inserts verbatim. -/
theorem claim_C2_eval :
    compute_bullet_ranges ['a', ' ', '\n', 'b'] =
      [⟨0, 1⟩, ⟨2, 3⟩] ∧
    (bulletStep (0, []) ['a', ' ']).1 = 2 := by decide

/-- C3 counterexample: for input `"a\n\tb\nc"` the claim predicts the
ranges `[{0,1}, {2,3}, {4,5}]`; the translator does not produce them. -/
theorem claim_C3_counterexample :
    compute_bullet_ranges ['a', '\n', '\t', 'b', '\n', 'c'] ≠
      [⟨0, 1⟩, ⟨2, 3⟩, ⟨4, 5⟩] := by decide

/-- C3 (amended): for input `"a\n\tb\nc"` the translator emits exactly
`[{start:0,end:1}, {start:2,end:4}, {start:5,end:6}]`, in that order: the
tab is included in the second range's length and in the cursor advance,
and no level value is attached to any range. -/
theorem claim_C3 :
    compute_bullet_ranges ['a', '\n', '\t', 'b', '\n', 'c'] =
      [⟨0, 1⟩, ⟨2, 4⟩, ⟨5, 6⟩] := by decide

/-- C4 counterexample: for the single-line input `" a"` the claim predicts
the one range `{0, len(" a".rstrip())} = {0, 2}`; the translator instead
emits `{0, 1}` because the whole string is stripped first. -/
theorem claim_C4_counterexample :
    compute_bullet_ranges [' ', 'a'] ≠ [⟨0, 2⟩] := by decide

/-- C4 (amended): for every single-line input `s` (no newline) that is not
blank after trimming, the translator returns exactly one range, namely
`{start: 0, end: len(s.strip())}` — the length of `s` with BOTH leading
and trailing whitespace removed, and with no level field. -/
theorem claim_C4 (s : List Char) (hn : '\n' ∉ s) (hb : strip s ≠ []) :
    compute_bullet_ranges s = [⟨0, (strip s).length⟩] := by
  have hnl : '\n' ∉ strip s := fun hx => hn (mem_strip hx)
  have hE : ¬ (strip s).isEmpty := by simpa [List.isEmpty_iff] using hb
  rw [compute_bullet_ranges_eq_emitFrom s hE, splitLines_no_newline hnl]
  simp only [emitFrom, strip_idem, rstrip_strip]
  rw [if_neg hE]
  simp

/-- C4 witness: the amended statement instantiated at the concrete
single-line input `"hi"`. -/
theorem claim_C4_witness :
    compute_bullet_ranges ['h', 'i'] = [⟨0, (strip ['h', 'i']).length⟩] :=
  claim_C4 ['h', 'i'] (by decide) (by decide)

/-- C5 counterexample: for input `" \na"`, running the very same per-line
loop over the lines of the ORIGINAL (unstripped) string yields a different
result than the translator, which strips the whole string before
splitting; so line boundaries and offsets are not computed from the
original string. -/
theorem claim_C5_counterexample :
    compute_bullet_ranges [' ', '\n', 'a'] ≠
      ((splitLines [' ', '\n', 'a']).foldl bulletStep (0, [])).2 := by decide

/-- C5 (amended): the translator strips the whole input (leading and
trailing whitespace) BEFORE splitting on the newline character, so its
result is invariant under pre-stripping, and a wholly blank block
short-circuits to the empty result. -/
theorem claim_C5 (s : List Char) :
    compute_bullet_ranges s = compute_bullet_ranges (strip s) ∧
      (strip s = [] → compute_bullet_ranges s = []) := by
  constructor
  · simp only [compute_bullet_ranges, strip_idem]
  · intro h
    rw [compute_bullet_ranges, if_pos (by simp [h])]

/-- C5 witness: the amended statement instantiated at the all-blank
input `" "`. -/
theorem claim_C5_witness : compute_bullet_ranges [' '] = [] :=
  (claim_C5 [' ']).2 (by decide)

/-- C6: the translator is a total function whose output satisfies the
claimed invariants: every emitted range has `end > start`; consecutive
ranges never overlap (`end ≤` next `start`, pairwise); starts are
monotonically non-decreasing; the number of ranges equals the number of
non-blank lines (blank lines emit no range); and an empty or all-blank
input yields the empty sequence. -/
theorem claim_C6 (s : List Char) :
    (∀ r ∈ compute_bullet_ranges s, r.startIndex < r.endIndex) ∧
    (compute_bullet_ranges s).Pairwise
      (fun a b => a.endIndex ≤ b.startIndex) ∧
    (compute_bullet_ranges s).Pairwise
      (fun a b => a.startIndex ≤ b.startIndex) ∧
    (compute_bullet_ranges s).length =
      ((splitLines (strip s)).filter (fun l => !(strip l).isEmpty)).length ∧
    (strip s = [] → compute_bullet_ranges s = []) := by
  by_cases h : (strip s).isEmpty
  · have hs : strip s = [] := by simpa [List.isEmpty_iff] using h
    simp only [compute_bullet_ranges, h, if_true]
    refine ⟨by simp, by simp, by simp, ?_, fun _ => trivial⟩
    rw [hs]
    decide
  · rw [compute_bullet_ranges_eq_emitFrom s h]
    have hb := emitFrom_bounds (splitLines (strip s)) 0
    have hp := emitFrom_pairwise (splitLines (strip s)) 0
    refine ⟨fun r hr => (hb r hr).2, ?_, ?_, emitFrom_count _ 0, ?_⟩
    · exact hp.imp (fun hab => Nat.le_of_lt hab)
    · exact hp.imp_of_mem
        (fun hma hmb hR => Nat.le_of_lt (Nat.lt_trans (hb _ hma).2 hR))
    · intro hnil
      exact absurd (by simp [hnil]) h

/-- C6 witness: the empty-result implication instantiated at the
all-blank input `"\t"`. -/
theorem claim_C6_witness : compute_bullet_ranges ['\t'] = [] :=
  (claim_C6 ['\t']).2.2.2.2 (by decide)

/-! ## Model of the `SlidesManager` and the MCP tools

Remote responses come from a deterministic environment `Services` of
response functions; every remote call (and every chart render) is
recorded in an explicit effect trace.  Constant layout payloads (sizes,
transforms, colours, bullet presets) are abbreviated to the fields the
program logic branches on.  Each method returns the (never mutated)
name-to-id table, its effect trace, and an `Except` result standing for
return-or-raise. -/

/-- One request of a Slides `batchUpdate` body. -/
inductive SlideRequest where
  | createSlide (objectId : String) (layout : String)
  | insertText (objectId : String) (text : String)
  | insertTableText (objectId : String) (rowIndex colIndex : Nat) (text : String)
  | updateCellBold (objectId : String) (rowIndex colIndex : Nat)
  | createParagraphBullets (objectId : String) (startIndex endIndex : Nat)
  | createTable (objectId : String) (pageObjectId : String) (rows columns : Nat)
  | createImage (objectId : String) (url : String) (pageObjectId : String)
  | createShape (objectId : String) (shapeType : String) (pageObjectId : String)
  | updateSlideBackground (objectId : String)
  | replaceAllShapesWithImage
deriving Repr, DecidableEq

/-- One externally visible side effect of a tool invocation: a remote
Slides/Drive API call, or a chart render by the plotting library. -/
inductive Effect where
  | slidesCreate (title : String)
  | slidesBatchUpdate (presentationId : String) (requests : List SlideRequest)
  | slidesGet (presentationId : String) (fields : String)
  | driveFilesCreate (name : String)
  | drivePermissionsCreate (fileId : String)
  | driveFilesList (query : String)
  | renderChart (kind : String)
deriving Repr, DecidableEq

/-- The fields of a page element that the program reads:
`element.get('objectId')` and `element.get('shape',{}).get('placeholder',{}).get('type')`. -/
structure PageElem where
  objectId : String
  placeholderType : Option String
deriving Repr, DecidableEq

/-- The fields of a slide that the program reads. -/
structure SlideData where
  objectId : String
  pageElements : List PageElem
deriving Repr, DecidableEq

/-- The fields of a `presentations().get` response that the program
reads; `masters = none` models a response without a `masters` key, and
`some n` a list of `n` masters. -/
structure PresentationGet where
  slides : List SlideData
  masters : Option Nat
deriving Repr, DecidableEq

/-- One file of a Drive `files().list` response. -/
structure DriveFile where
  id : String
  name : String
deriving Repr, DecidableEq

/-- Deterministic environment of external primitives: remote API
responses as functions of the request, plus the md5-based short-id hash
and the PNG renderer of the plotting library (both opaque byte-level
primitives). -/
structure Services where
  createdPresentationId : String → String
  batchReplies : String → List SlideRequest → List String
  getPresentation : String → String → PresentationGet
  driveFileId : String → String
  driveSearch : String → List DriveFile
  md5hex10 : String → String
  renderChartPng : String → String

/-- `SlidesManager._create_short_id`. -/
def create_short_id (env : Services) (p : String) (title : String) : String :=
  p ++ "_" ++ env.md5hex10 title

/-- Python `name in self.presentations` / `self.presentations[name]` on
the insertion-ordered dict, modelled as an association list. -/
def dictLookup (d : List (String × String)) (k : String) : Option String :=
  (d.find? (fun kv => kv.1 == k)).map (fun kv => kv.2)

/-- Python `self.presentations[name] = id` (dict assignment). -/
def dictInsert (d : List (String × String)) (k v : String) :
    List (String × String) :=
  if (d.find? (fun kv => kv.1 == k)).isSome then
    d.map (fun kv => if kv.1 == k then (k, v) else kv)
  else d ++ [(k, v)]

/-- Result of one `SlidesManager` method: the (never mutated) table, the
effect trace, and the returned string or the raised error message. -/
structure MethodOut where
  presentations : List (String × String)
  trace : List Effect
  result : Except String String
deriving Repr

/-- The not-found message `f"Presentation '{name}' not found"`. -/
def notFound (name : String) : String :=
  "Presentation \x27" ++ name ++ "\x27 not found"

/-- The placeholder-scanning loops keep overwriting the id variable, so
the LAST element with the given placeholder type wins. -/
def lastPlaceholder (elems : List PageElem) (t : String) : Option String :=
  elems.foldl
    (fun acc e => if e.placeholderType == some t then some e.objectId else acc)
    none

/-- The BODY ids of a two-column slide are collected in element order. -/
def bodyPlaceholders (elems : List PageElem) : List String :=
  elems.foldl
    (fun acc e =>
      if e.placeholderType == some "BODY" then acc ++ [e.objectId] else acc)
    []

/-- The `for slide in slides: if objectId == created: created_slide = slide; break`
loop: the FIRST match wins. -/
def findSlide (slides : List SlideData) (sid : String) : Option SlideData :=
  slides.find? (fun sl => sl.objectId == sid)

/-- `SlidesManager.create_presentation` (source lines 69-78). -/
def SlidesManager.create_presentation (env : Services)
    (presentations : List (String × String)) (name : String) : MethodOut :=
  let presentation_id := env.createdPresentationId name
  ⟨dictInsert presentations name presentation_id,
   [Effect.slidesCreate name],
   .ok presentation_id⟩

/-- `SlidesManager.add_title_slide` (source lines 99-174). -/
def SlidesManager.add_title_slide (env : Services)
    (presentations : List (String × String))
    (presentation_name title subtitle : String) : MethodOut :=
  match dictLookup presentations presentation_name with
  | none => ⟨presentations, [], .error (notFound presentation_name)⟩
  | some presentation_id =>
    let slide_id := create_short_id env "title" title
    let requests := [SlideRequest.createSlide slide_id "TITLE"]
    let replies := env.batchReplies presentation_id requests
    let t1 := [Effect.slidesBatchUpdate presentation_id requests]
    match replies.head? with
    | none => ⟨presentations, t1, .error "IndexError: list index out of range"⟩
    | some created_slide_id =>
      let pres := env.getPresentation presentation_id ""
      let t2 := t1 ++ [Effect.slidesGet presentation_id ""]
      match findSlide pres.slides created_slide_id with
      | none => ⟨presentations, t2, .ok created_slide_id⟩
      | some created_slide =>
        let title_id := lastPlaceholder created_slide.pageElements "TITLE"
        let subtitle_id := lastPlaceholder created_slide.pageElements "SUBTITLE"
        let text_requests : List SlideRequest :=
          (match title_id with
            | some tid => [SlideRequest.insertText tid title]
            | none => []) ++
          (if subtitle ≠ "" then
            match subtitle_id with
              | some sid => [SlideRequest.insertText sid subtitle]
              | none => []
            else [])
        let t3 := if text_requests.isEmpty then t2
          else t2 ++ [Effect.slidesBatchUpdate presentation_id text_requests]
        ⟨presentations, t3, .ok created_slide_id⟩

/-- `SlidesManager.add_section_header_slide` (source lines 176-247). -/
def SlidesManager.add_section_header_slide (env : Services)
    (presentations : List (String × String))
    (presentation_name header subtitle : String) : MethodOut :=
  match dictLookup presentations presentation_name with
  | none => ⟨presentations, [], .error (notFound presentation_name)⟩
  | some presentation_id =>
    let slide_id := create_short_id env "section" header
    let requests := [SlideRequest.createSlide slide_id "SECTION_HEADER"]
    let replies := env.batchReplies presentation_id requests
    let t1 := [Effect.slidesBatchUpdate presentation_id requests]
    match replies.head? with
    | none => ⟨presentations, t1, .error "IndexError: list index out of range"⟩
    | some created_slide_id =>
      let pres := env.getPresentation presentation_id "slides.pageElements"
      let t2 := t1 ++ [Effect.slidesGet presentation_id "slides.pageElements"]
      match findSlide pres.slides created_slide_id with
      | none => ⟨presentations, t2, .ok created_slide_id⟩
      | some created_slide =>
        let title_id := lastPlaceholder created_slide.pageElements "TITLE"
        let body_id := lastPlaceholder created_slide.pageElements "BODY"
        let text_requests : List SlideRequest :=
          (match title_id with
            | some tid => [SlideRequest.insertText tid header]
            | none => []) ++
          (if subtitle ≠ "" then
            match body_id with
              | some bid => [SlideRequest.insertText bid subtitle]
              | none => []
            else [])
        let t3 := if text_requests.isEmpty then t2
          else t2 ++ [Effect.slidesBatchUpdate presentation_id text_requests]
        ⟨presentations, t3, .ok created_slide_id⟩

/-- `SlidesManager.add_content_slide` (source lines 249-353).  The bullet
block (lines 320-351) is exactly `compute_bullet_ranges` on the content,
mapped onto `createParagraphBullets` requests: the `body_id and
content.strip()` guard corresponds to the empty range list. -/
def SlidesManager.add_content_slide (env : Services)
    (presentations : List (String × String))
    (presentation_name title content : String) : MethodOut :=
  match dictLookup presentations presentation_name with
  | none => ⟨presentations, [], .error (notFound presentation_name)⟩
  | some presentation_id =>
    let slide_id := create_short_id env "content" title
    let requests := [SlideRequest.createSlide slide_id "TITLE_AND_BODY"]
    let replies := env.batchReplies presentation_id requests
    let t1 := [Effect.slidesBatchUpdate presentation_id requests]
    match replies.head? with
    | none => ⟨presentations, t1, .error "IndexError: list index out of range"⟩
    | some created_slide_id =>
      let pres := env.getPresentation presentation_id "slides.pageElements"
      let t2 := t1 ++ [Effect.slidesGet presentation_id "slides.pageElements"]
      match findSlide pres.slides created_slide_id with
      | none => ⟨presentations, t2, .ok created_slide_id⟩
      | some created_slide =>
        let title_id := lastPlaceholder created_slide.pageElements "TITLE"
        let body_id := lastPlaceholder created_slide.pageElements "BODY"
        let text_requests : List SlideRequest :=
          (match title_id with
            | some tid => [SlideRequest.insertText tid title]
            | none => []) ++
          (match body_id with
            | some bid => [SlideRequest.insertText bid content]
            | none => [])
        let t3 := if text_requests.isEmpty then t2
          else t2 ++ [Effect.slidesBatchUpdate presentation_id text_requests]
        let bullet_requests : List SlideRequest :=
          match body_id with
          | some bid =>
            (compute_bullet_ranges content.toList).map
              (fun r => SlideRequest.createParagraphBullets bid
                r.startIndex r.endIndex)
          | none => []
        let t4 := if bullet_requests.isEmpty then t3
          else t3 ++ [Effect.slidesBatchUpdate presentation_id bullet_requests]
        ⟨presentations, t4, .ok created_slide_id⟩

/-- `SlidesManager.add_two_column_slide` (source lines 355-440). -/
def SlidesManager.add_two_column_slide (env : Services)
    (presentations : List (String × String))
    (presentation_name title left_title left_content right_title
      right_content : String) : MethodOut :=
  match dictLookup presentations presentation_name with
  | none => ⟨presentations, [], .error (notFound presentation_name)⟩
  | some presentation_id =>
    let slide_id := create_short_id env "twocol" title
    let requests := [SlideRequest.createSlide slide_id "TITLE_AND_TWO_COLUMNS"]
    let replies := env.batchReplies presentation_id requests
    let t1 := [Effect.slidesBatchUpdate presentation_id requests]
    match replies.head? with
    | none => ⟨presentations, t1, .error "IndexError: list index out of range"⟩
    | some created_slide_id =>
      let pres := env.getPresentation presentation_id "slides.pageElements"
      let t2 := t1 ++ [Effect.slidesGet presentation_id "slides.pageElements"]
      match findSlide pres.slides created_slide_id with
      | none => ⟨presentations, t2, .ok created_slide_id⟩
      | some created_slide =>
        let title_id := lastPlaceholder created_slide.pageElements "TITLE"
        let body_ids := bodyPlaceholders created_slide.pageElements
        let text_requests : List SlideRequest :=
          (match title_id with
            | some tid => [SlideRequest.insertText tid title]
            | none => []) ++
          (match body_ids.head? with
            | some b0 =>
              [SlideRequest.insertText b0 (left_title ++ "\n" ++ left_content)]
            | none => []) ++
          (match body_ids[1]? with
            | some b1 =>
              [SlideRequest.insertText b1 (right_title ++ "\n" ++ right_content)]
            | none => [])
        let t3 := if text_requests.isEmpty then t2
          else t2 ++ [Effect.slidesBatchUpdate presentation_id text_requests]
        ⟨presentations, t3, .ok created_slide_id⟩

/-- The header-row requests of `add_table_slide`: for each header, an
`insertText` into row 0 and a bold `updateTextStyle` on the same cell. -/
def tableHeaderRequests (table_id : String) (headers : List String) :
    List SlideRequest :=
  (headers.enum.map (fun p =>
    [SlideRequest.insertTableText table_id 0 p.1 p.2,
     SlideRequest.updateCellBold table_id 0 p.1])).flatten

/-- The data-row requests of `add_table_slide`: cell (i, j) goes to row
`i + 1` (skipping the header row), column `j`, as `str(cell)`. -/
def tableDataRequests (table_id : String) (rows : List (List String)) :
    List SlideRequest :=
  (rows.enum.map (fun pr =>
    pr.2.enum.map (fun pc =>
      SlideRequest.insertTableText table_id (pr.1 + 1) pc.1 pc.2))).flatten

/-- `SlidesManager.add_table_slide` (source lines 442-580).  Cell values
(`Any`, rendered with `str`) are modelled as strings. -/
def SlidesManager.add_table_slide (env : Services)
    (presentations : List (String × String))
    (presentation_name title : String)
    (headers : List String) (rows : List (List String)) : MethodOut :=
  match dictLookup presentations presentation_name with
  | none => ⟨presentations, [], .error (notFound presentation_name)⟩
  | some presentation_id =>
    let slide_id := create_short_id env "table" title
    let requests := [SlideRequest.createSlide slide_id "TITLE_ONLY"]
    let replies := env.batchReplies presentation_id requests
    let t1 := [Effect.slidesBatchUpdate presentation_id requests]
    match replies.head? with
    | none => ⟨presentations, t1, .error "IndexError: list index out of range"⟩
    | some created_slide_id =>
      let pres := env.getPresentation presentation_id "slides.pageElements"
      let t2 := t1 ++ [Effect.slidesGet presentation_id "slides.pageElements"]
      let t3 :=
        match findSlide pres.slides created_slide_id with
        | none => t2
        | some created_slide =>
          match lastPlaceholder created_slide.pageElements "TITLE" with
          | some title_id =>
            t2 ++ [Effect.slidesBatchUpdate presentation_id
              [SlideRequest.insertText title_id title]]
          | none => t2
      let table_id := slide_id ++ "_tbl"
      let create_table_request :=
        [SlideRequest.createTable table_id slide_id (rows.length + 1)
          headers.length]
      let t4 := t3 ++ [Effect.slidesBatchUpdate presentation_id
        create_table_request]
      let header_requests := tableHeaderRequests table_id headers
      let t5 := if header_requests.isEmpty then t4
        else t4 ++ [Effect.slidesBatchUpdate presentation_id header_requests]
      let data_requests := tableDataRequests table_id rows
      let t6 := if data_requests.isEmpty then t5
        else t5 ++ [Effect.slidesBatchUpdate presentation_id data_requests]
      ⟨presentations, t6, .ok created_slide_id⟩

/-- `SlidesManager.add_image_slide` (source lines 582-733).  The raw PNG
bytes are carried as an opaque string. -/
def SlidesManager.add_image_slide (env : Services)
    (presentations : List (String × String))
    (presentation_name title : String) (image_data : String)
    (caption : String) : MethodOut :=
  match dictLookup presentations presentation_name with
  | none => ⟨presentations, [], .error (notFound presentation_name)⟩
  | some presentation_id =>
    let file_name :=
      "img_" ++ ((title.replace " " "_").toList.take 20).asString ++ ".png"
    let image_file_id := env.driveFileId file_name
    let t1 := [Effect.driveFilesCreate file_name,
      Effect.drivePermissionsCreate image_file_id]
    let slide_id := create_short_id env "img" title
    let requests := [SlideRequest.createSlide slide_id "TITLE_ONLY"]
    let replies := env.batchReplies presentation_id requests
    let t2 := t1 ++ [Effect.slidesBatchUpdate presentation_id requests]
    match replies.head? with
    | none => ⟨presentations, t2, .error "IndexError: list index out of range"⟩
    | some created_slide_id =>
      let pres := env.getPresentation presentation_id "slides.pageElements"
      let t3 := t2 ++ [Effect.slidesGet presentation_id "slides.pageElements"]
      let t4 :=
        match findSlide pres.slides created_slide_id with
        | none => t3
        | some created_slide =>
          match lastPlaceholder created_slide.pageElements "TITLE" with
          | some title_id =>
            t3 ++ [Effect.slidesBatchUpdate presentation_id
              [SlideRequest.insertText title_id title]]
          | none => t3
      let image_id := slide_id ++ "_i"
      let image_request :=
        [SlideRequest.createImage image_id
          ("https://drive.google.com/uc?id=" ++ image_file_id)
          created_slide_id]
      let t5 := t4 ++ [Effect.slidesBatchUpdate presentation_id image_request]
      let t6 :=
        if caption ≠ "" then
          let caption_id := slide_id ++ "_c"
          t5 ++ [Effect.slidesBatchUpdate presentation_id
            [SlideRequest.createShape caption_id "TEXT_BOX" created_slide_id,
             SlideRequest.insertText caption_id caption]]
        else t5
      ⟨presentations, t6, .ok created_slide_id⟩

/-- `SlidesManager.get_presentation_url` (source lines 735-741). -/
def SlidesManager.get_presentation_url (env : Services)
    (presentations : List (String × String))
    (presentation_name : String) : MethodOut :=
  match dictLookup presentations presentation_name with
  | none => ⟨presentations, [], .error (notFound presentation_name)⟩
  | some presentation_id =>
    ⟨presentations, [],
     .ok ("https://docs.google.com/presentation/d/" ++ presentation_id ++
       "/edit")⟩

/-- `SlidesManager.apply_theme_from_presentation` (source lines 743-772). -/
def SlidesManager.apply_theme_from_presentation (env : Services)
    (presentations : List (String × String))
    (presentation_name source_presentation_id : String) : MethodOut :=
  match dictLookup presentations presentation_name with
  | none => ⟨presentations, [], .error (notFound presentation_name)⟩
  | some presentation_id =>
    let source := env.getPresentation source_presentation_id "masters"
    let t1 := [Effect.slidesGet source_presentation_id "masters"]
    match source.masters with
    | none => ⟨presentations, t1, .error "Source presentation has no masters"⟩
    | some n =>
      let requests :=
        List.replicate n SlideRequest.replaceAllShapesWithImage
      let t2 := if requests.isEmpty then t1
        else t1 ++ [Effect.slidesBatchUpdate presentation_id requests]
      ⟨presentations, t2,
       .ok ("Applied theme from " ++ source_presentation_id ++ " to " ++
         presentation_name)⟩

/-- `SlidesManager.apply_beautiful_styling` (source lines 774-817). -/
def SlidesManager.apply_beautiful_styling (env : Services)
    (presentations : List (String × String))
    (presentation_name : String) : MethodOut :=
  match dictLookup presentations presentation_name with
  | none => ⟨presentations, [], .error (notFound presentation_name)⟩
  | some presentation_id =>
    let pres := env.getPresentation presentation_id "slides"
    let t1 := [Effect.slidesGet presentation_id "slides"]
    let styling_requests :=
      pres.slides.map (fun sl => SlideRequest.updateSlideBackground sl.objectId)
    let t2 := if styling_requests.isEmpty then t1
      else t1 ++ [Effect.slidesBatchUpdate presentation_id styling_requests]
    ⟨presentations, t2,
     .ok ("Applied beautiful styling to " ++ presentation_name)⟩

/-- `SlidesManager.apply_theme_by_name` (source lines 819-848): the Drive
search and the nested `apply_theme_from_presentation` run inside a
`try` whose `except` re-wraps any error with a fixed message. -/
def SlidesManager.apply_theme_by_name (env : Services)
    (presentations : List (String × String))
    (presentation_name theme_name : String) : MethodOut :=
  match dictLookup presentations presentation_name with
  | none => ⟨presentations, [], .error (notFound presentation_name)⟩
  | some _ =>
    let search_query :=
      "name contains \x27" ++ theme_name ++
        "\x27 and mimeType=\x27application/vnd.google-apps.presentation\x27"
    let files := env.driveSearch search_query
    let t1 := [Effect.driveFilesList search_query]
    match files.head? with
    | none =>
      ⟨presentations, t1,
       .error ("Failed to find or apply theme: No theme template found with" ++
         " name containing \x27" ++ theme_name ++ "\x27")⟩
    | some theme_file =>
      let sub := SlidesManager.apply_theme_from_presentation env presentations
        presentation_name theme_file.id
      match sub.result with
      | .ok _ =>
        ⟨presentations, t1 ++ sub.trace,
         .ok ("Applied theme \x27" ++ theme_file.name ++ "\x27 to " ++
           presentation_name)⟩
      | .error e =>
        ⟨presentations, t1 ++ sub.trace,
         .error ("Failed to find or apply theme: " ++ e)⟩

/-! ## The MCP tool wrappers

Each tool body runs in a `try` whose `except` re-raises any error with a
fixed prefix; the process-wide `_slides_manager` global is the optional
table.  A `none` global models the unset/`None` manager (the code then
raises before touching anything). -/

/-- The `data` argument of the `add_table_slide` tool: a dict whose
`headers` / `rows` keys may be absent (`data.get(key, [])`). -/
structure TableData where
  headers : Option (List String)
  rows : Option (List (List String))

/-- The `create_presentation` tool (source lines 879-899): it constructs
a FRESH `SlidesManager` (whose `presentations` table starts empty),
creates the document through it, and only then replaces the global
`_slides_manager` with the fresh manager. -/
def create_presentation_tool (env : Services)
    (g : Option (List (String × String))) (name : String) :
    Option (List (String × String)) × List Effect × Except String String :=
  let fresh : List (String × String) := []
  let out := SlidesManager.create_presentation env fresh name
  match out.result with
  | .ok presentation_id =>
    (some out.presentations, out.trace,
     .ok ("Created new presentation: " ++ name ++ " (ID: " ++
       presentation_id ++ ")"))
  | .error e =>
    (g, out.trace, .error ("Failed to create presentation: " ++ e))

/-- The `add_table_slide` tool (source lines 1003-1039): manager check,
then the three input validations, then the manager call; all raised
errors are re-wrapped with the fixed prefix. -/
def add_table_slide_tool (env : Services)
    (g : Option (List (String × String)))
    (presentation_name title : String) (data : TableData) :
    List Effect × Except String String :=
  match g with
  | none =>
    ([], .error ("Failed to add table slide: No active slides manager. " ++
      "Create a presentation first."))
  | some presentations =>
    let headers := data.headers.getD []
    let rows := data.rows.getD []
    if headers.isEmpty then
      ([], .error "Failed to add table slide: Table headers are required")
    else if rows.isEmpty then
      ([], .error "Failed to add table slide: Table rows are required")
    else if !(rows.all (fun row => row.length == headers.length)) then
      ([], .error ("Failed to add table slide: All rows must have the same " ++
        "number of columns as headers"))
    else
      let out := SlidesManager.add_table_slide env presentations
        presentation_name title headers rows
      match out.result with
      | .ok _ =>
        (out.trace, .ok ("Added table slide \x27" ++ title ++
          "\x27 to presentation: " ++ presentation_name))
      | .error e =>
        (out.trace, .error ("Failed to add table slide: " ++ e))

/-- The `create_bar_chart` tool (source lines 1062-1119): manager check,
then the length validation, then the plotly render, then the image-slide
upload; float values are carried opaquely. -/
def create_bar_chart_tool (env : Services)
    (g : Option (List (String × String)))
    (presentation_name slide_title : String)
    (categories : List String) (values : List Float)
    (chart_title x_label y_label : String) (width height : Nat) :
    List Effect × Except String String :=
  match g with
  | none =>
    ([], .error ("Failed to add bar chart slide: No active slides manager. " ++
      "Create a presentation first."))
  | some presentations =>
    if categories.length ≠ values.length then
      ([], .error ("Failed to add bar chart slide: categories and values " ++
        "must have the same length"))
    else
      let img_bytes := env.renderChartPng "bar"
      let out := SlidesManager.add_image_slide env presentations
        presentation_name slide_title img_bytes
        ("Chart showing " ++ y_label ++ " by " ++ x_label)
      match out.result with
      | .ok _ =>
        (Effect.renderChart "bar" :: out.trace,
         .ok ("Added bar chart slide \x27" ++ slide_title ++
           "\x27 to presentation: " ++ presentation_name))
      | .error e =>
        (Effect.renderChart "bar" :: out.trace,
         .error ("Failed to add bar chart slide: " ++ e))

/-! ## Claims about the tools and the manager -/

/-- A concrete environment used to instantiate universally quantified
theorems at closed inputs. -/
def defaultServices : Services where
  createdPresentationId := fun _ => "pid0"
  batchReplies := fun _ _ => ["sl0"]
  getPresentation := fun _ _ => ⟨[], none⟩
  driveFileId := fun _ => "f0"
  driveSearch := fun _ => []
  md5hex10 := fun _ => "0123456789"
  renderChartPng := fun _ => "png"

/-- C7: with headers `["A","B"]`, the `add_table_slide` tool rejects —
with an input-validation error and an EMPTY effect trace, so before any
remote request — every `rows` value containing a row whose length is not
2, as well as missing headers and missing rows; and when every row has
length 2 (rows present and non-empty) validation passes and the call
proceeds to the manager method. -/
theorem claim_C7 (env : Services) (presentations : List (String × String))
    (presentation_name title : String) (rows : List (List String)) :
    ((∃ row ∈ rows, row.length ≠ 2) →
      add_table_slide_tool env (some presentations) presentation_name title
        ⟨some ["A", "B"], some rows⟩ =
        ([], .error ("Failed to add table slide: All rows must have the " ++
          "same number of columns as headers"))) ∧
    (add_table_slide_tool env (some presentations) presentation_name title
        ⟨none, some rows⟩ =
        ([], .error "Failed to add table slide: Table headers are required")) ∧
    (add_table_slide_tool env (some presentations) presentation_name title
        ⟨some ["A", "B"], none⟩ =
        ([], .error "Failed to add table slide: Table rows are required")) ∧
    (rows ≠ [] → (∀ row ∈ rows, row.length = 2) →
      add_table_slide_tool env (some presentations) presentation_name title
        ⟨some ["A", "B"], some rows⟩ =
        ((SlidesManager.add_table_slide env presentations presentation_name
            title ["A", "B"] rows).trace,
          match (SlidesManager.add_table_slide env presentations
            presentation_name title ["A", "B"] rows).result with
          | .ok _ =>
            .ok ("Added table slide \x27" ++ title ++
              "\x27 to presentation: " ++ presentation_name)
          | .error e =>
            .error ("Failed to add table slide: " ++ e))) := by
  refine ⟨?_, ?_, ?_, ?_⟩
  · rintro ⟨row, hmem, hlen⟩
    have h1 : rows.isEmpty = false := by
      cases rows
      · simp at hmem
      · rfl
    simp [add_table_slide_tool, h1]
    intro hf
    exact absurd (hf row hmem) hlen
  · simp [add_table_slide_tool]
  · simp [add_table_slide_tool]
  · intro hne hall
    have h1 : rows.isEmpty = false := by
      cases rows
      · exact absurd rfl hne
      · rfl
    simp [add_table_slide_tool, h1]
    rw [if_neg (by rintro ⟨x, hx, hnx⟩; exact hnx (hall x hx))]
    cases hres : (SlidesManager.add_table_slide env presentations
        presentation_name title ["A", "B"] rows).result <;>
      simp [hres]

/-- C7 witness: the tool at a concrete environment rejects `[["x"]]`
(row length 1) with the validation error and no effect. -/
theorem claim_C7_witness :
    add_table_slide_tool defaultServices (some [("p", "id1")]) "p" "t"
      ⟨some ["A", "B"], some [["x"]]⟩ =
      ([], .error ("Failed to add table slide: All rows must have the " ++
        "same number of columns as headers")) :=
  (claim_C7 defaultServices [("p", "id1")] "p" "t" [["x"]]).1
    ⟨["x"], by decide, by decide⟩

/-- C8: whenever `categories` and `values` have different lengths, the
`create_bar_chart` tool fails with the length-mismatch error and an empty
effect trace: no chart is rendered and no Drive/Slides request happens,
so no state changes. -/
theorem claim_C8 (env : Services) (presentations : List (String × String))
    (presentation_name slide_title : String)
    (categories : List String) (values : List Float)
    (chart_title x_label y_label : String) (width height : Nat)
    (h : categories.length ≠ values.length) :
    create_bar_chart_tool env (some presentations) presentation_name
      slide_title categories values chart_title x_label y_label width
      height =
      ([], .error ("Failed to add bar chart slide: categories and values " ++
        "must have the same length")) := by
  simp [create_bar_chart_tool, h]

/-- C8 witness: 3 categories against 2 values at a concrete
environment. -/
theorem claim_C8_witness :
    create_bar_chart_tool defaultServices (some [("p", "id1")]) "p" "t"
      ["a", "b", "c"] [1.0, 2.0] "ct" "x" "y" 800 600 =
      ([], .error ("Failed to add bar chart slide: categories and values " ++
        "must have the same length")) :=
  claim_C8 defaultServices [("p", "id1")] "p" "t" ["a", "b", "c"] [1.0, 2.0]
    "ct" "x" "y" 800 600 (by decide)

/-- C9: every `SlidesManager` method that references a presentation by
name fails immediately with the human-readable not-found message when the
name is absent from the in-process table: the effect trace is empty (no
remote request) and the table is returned unchanged. -/
theorem claim_C9 (env : Services) (presentations : List (String × String))
    (name a b c d e : String)
    (headers : List String) (rows : List (List String))
    (h : dictLookup presentations name = none) :
    SlidesManager.add_title_slide env presentations name a b =
      ⟨presentations, [], .error (notFound name)⟩ ∧
    SlidesManager.add_section_header_slide env presentations name a b =
      ⟨presentations, [], .error (notFound name)⟩ ∧
    SlidesManager.add_content_slide env presentations name a b =
      ⟨presentations, [], .error (notFound name)⟩ ∧
    SlidesManager.add_two_column_slide env presentations name a b c d e =
      ⟨presentations, [], .error (notFound name)⟩ ∧
    SlidesManager.add_table_slide env presentations name a headers rows =
      ⟨presentations, [], .error (notFound name)⟩ ∧
    SlidesManager.add_image_slide env presentations name a b c =
      ⟨presentations, [], .error (notFound name)⟩ ∧
    SlidesManager.get_presentation_url env presentations name =
      ⟨presentations, [], .error (notFound name)⟩ ∧
    SlidesManager.apply_theme_from_presentation env presentations name a =
      ⟨presentations, [], .error (notFound name)⟩ ∧
    SlidesManager.apply_beautiful_styling env presentations name =
      ⟨presentations, [], .error (notFound name)⟩ ∧
    SlidesManager.apply_theme_by_name env presentations name a =
      ⟨presentations, [], .error (notFound name)⟩ := by
  refine ⟨?_, ?_, ?_, ?_, ?_, ?_, ?_, ?_, ?_, ?_⟩ <;>
    simp only [SlidesManager.add_title_slide,
      SlidesManager.add_section_header_slide,
      SlidesManager.add_content_slide, SlidesManager.add_two_column_slide,
      SlidesManager.add_table_slide, SlidesManager.add_image_slide,
      SlidesManager.get_presentation_url,
      SlidesManager.apply_theme_from_presentation,
      SlidesManager.apply_beautiful_styling,
      SlidesManager.apply_theme_by_name, h]

/-- C9 witness: `get_presentation_url` on the empty table at a concrete
environment fails with the not-found message, no effects. -/
theorem claim_C9_witness :
    SlidesManager.get_presentation_url defaultServices [] "missing" =
      ⟨[], [], .error (notFound "missing")⟩ :=
  (claim_C9 defaultServices [] "missing" "" "" "" "" "" [] []
    (by rfl)).2.2.2.2.2.2.1

/-- C10: every successful `create_presentation` tool call replaces the
global manager with a fresh one whose table holds exactly the one
presentation just created, so any other name is no longer resolvable by
subsequent calls. -/
theorem claim_C10 (env : Services) (g : Option (List (String × String)))
    (name : String) :
    (create_presentation_tool env g name).1 =
      some [(name, env.createdPresentationId name)] ∧
    (∀ other, other ≠ name →
      dictLookup [(name, env.createdPresentationId name)] other = none) := by
  constructor
  · simp [create_presentation_tool, SlidesManager.create_presentation,
      dictInsert]
  · intro other hne
    have hb : (name == other) = false := by
      simpa using Ne.symm hne
    simp [dictLookup, List.find?, hb]

/-- C10 witness: after creating `"new"` over a global that previously
held `"old"`, the table is exactly `{new}` and `"old"` is gone. -/
theorem claim_C10_witness :
    (create_presentation_tool defaultServices (some [("old", "oid")])
        "new").1 =
      some [("new", defaultServices.createdPresentationId "new")] ∧
    dictLookup [("new", defaultServices.createdPresentationId "new")]
      "old" = none := by
  have h := claim_C10 defaultServices (some [("old", "oid")]) "new"
  exact ⟨h.1, h.2 "old" (by decide)⟩
